import Mathlib

/-!
Shallow embedding of the FileReadabilityTool repository (src/utils.py and
src/main.py) in Lean 4, together with theorems settling the claims about it.

Python strings are modelled as lists of Unicode code points (`List Char`);
byte blobs as `List Nat`.  The external libraries the code delegates to
(textstat, LanguageTool, PyPDF2, python-docx, transformers pipelines) are
modelled as oracle parameters: the repository's own logic — the empty-input
short-circuits, dictionary shaping, slicing, format dispatch, UTF-8 decoding
of plain text, and the display colour thresholds — is translated faithfully
from the source.
-/

namespace FileReadability

/-- The set of code points Python's str.isspace / str.strip treats as
whitespace (ASCII whitespace, the C1 separators, NEL, NBSP and the Unicode
space/line/paragraph separators). -/
def pyIsSpace (c : Char) : Bool :=
  ([9, 10, 11, 12, 13, 28, 29, 30, 31, 32, 0x85, 0xA0, 0x1680,
    0x2000, 0x2001, 0x2002, 0x2003, 0x2004, 0x2005, 0x2006, 0x2007,
    0x2008, 0x2009, 0x200A, 0x2028, 0x2029, 0x202F, 0x205F, 0x3000] :
    List Nat).contains c.toNat

/-- Python str.strip(): drop leading and trailing whitespace. -/
def pyStrip (s : List Char) : List Char :=
  ((s.dropWhile pyIsSpace).reverse.dropWhile pyIsSpace).reverse

/-- The guard `not text.strip()` used throughout utils.py: true exactly when
the text is empty or whitespace-only. -/
def isBlank (s : List Char) : Bool :=
  pyStrip s == []

/-- A value stored in the readability report: a Python int, a float
(modelled as a rational), or a string such as the sentinel N/A or the
textual grade estimate. -/
inductive MetricValue
  | int (n : Int)
  | num (q : ℚ)
  | str (s : String)
  deriving DecidableEq

/-- Oracle for the external textstat library: one function per metric the
calculator passes through.  Counts are Python ints, scores floats
(rationals here) and the text standard a string. -/
structure Textstat where
  lexicon_count : List Char → Int
  sentence_count : List Char → Int
  flesch_reading_ease : List Char → ℚ
  flesch_kincaid_grade : List Char → ℚ
  gunning_fog : List Char → ℚ
  smog_index : List Char → ℚ
  automated_readability_index : List Char → ℚ
  coleman_liau_index : List Char → ℚ
  dale_chall_readability_score : List Char → ℚ
  lix : List Char → ℚ
  rix : List Char → ℚ
  text_standard : List Char → String

/-- utils.calculate_readability_scores: the report is an insertion-ordered
mapping from metric name to value.  Blank input short-circuits to the fixed
N-A report (counts zero); otherwise every metric is a pass-through call to
the textstat oracle, except Character Count which is len(text). -/
def calculate_readability_scores (ts : Textstat) (text : List Char) :
    List (String × MetricValue) :=
  if isBlank text then
    [("Word Count", .int 0),
     ("Sentence Count", .int 0),
     ("Character Count", .int 0),
     ("Flesch Reading Ease", .str "N/A"),
     ("Flesch-Kincaid Grade Level", .str "N/A"),
     ("Gunning Fog Index", .str "N/A"),
     ("SMOG Index", .str "N/A"),
     ("ARI (Automated Readability Index)", .str "N/A"),
     ("Coleman-Liau Index", .str "N/A"),
     ("Dale-Chall Readability Score", .str "N/A"),
     ("LIX Score", .str "N/A"),
     ("RIX Score", .str "N/A"),
     ("Text Standard", .str "N/A")]
  else
    [("Word Count", .int (ts.lexicon_count text)),
     ("Sentence Count", .int (ts.sentence_count text)),
     ("Character Count", .int text.length),
     ("Flesch Reading Ease", .num (ts.flesch_reading_ease text)),
     ("Flesch-Kincaid Grade Level", .num (ts.flesch_kincaid_grade text)),
     ("Gunning Fog Index", .num (ts.gunning_fog text)),
     ("SMOG Index", .num (ts.smog_index text)),
     ("ARI (Automated Readability Index)", .num (ts.automated_readability_index text)),
     ("Coleman-Liau Index", .num (ts.coleman_liau_index text)),
     ("Dale-Chall Readability Score", .num (ts.dale_chall_readability_score text)),
     ("LIX Score", .num (ts.lix text)),
     ("RIX Score", .num (ts.rix text)),
     ("Text Standard", .str (ts.text_standard text))]

/-- A match object as returned by the LanguageTool engine (the fields
check_grammar reads). -/
structure LTMatch where
  offset : Nat
  errorLength : Nat
  message : String
  ruleId : String
  ruleIssueType : String
  replacements : List String
  deriving DecidableEq

/-- One grammar-issue record produced by check_grammar: the fields of the
dictionary it appends (Context, Message, Category, Rule Name, Suggested
Correction, Offset, Length). -/
structure GrammarIssue where
  context : List Char
  message : String
  category : String
  ruleName : String
  suggestedCorrection : String
  offset : Nat
  length : Nat
  deriving DecidableEq

/-- The dictionary built for one match inside check_grammar's loop:
Context is text[offset : offset + errorLength] (a clamping Python slice),
Suggested Correction joins the replacements with a comma-space, or the
sentinel when the list is empty. -/
def mkGrammarIssue (text : List Char) (m : LTMatch) : GrammarIssue :=
  { context := (text.drop m.offset).take m.errorLength
    message := m.message
    category := m.ruleId
    ruleName := m.ruleIssueType
    suggestedCorrection :=
      if m.replacements.isEmpty then "N/A"
      else String.intercalate ", " m.replacements
    offset := m.offset
    length := m.errorLength }

/-- utils.check_grammar, with the external LanguageTool engine as an oracle
from text to a list of matches.  Blank input short-circuits to the empty
list before the engine handle is even obtained; otherwise the engine is
invoked once and each match is reshaped in order. -/
def check_grammar (engine : List Char → List LTMatch) (text : List Char) :
    List GrammarIssue :=
  if isBlank text then []
  else (engine text).map (mkGrammarIssue text)

/-- An uploaded file as seen by the extractor: the declared MIME type and
the raw bytes returned by getvalue(). -/
structure UploadedFile where
  type : String
  content : List Nat
  deriving DecidableEq

/-- Is a byte a UTF-8 continuation byte (0x80..0xBF)? -/
def isCont (b : Nat) : Bool :=
  0x80 ≤ b && b < 0xC0

/-- One pass of UTF-8 decoding with invalid sequences dropped rather than
raising, the behaviour of Python's bytes.decode(utf-8, errors=ignore) on
which the plain-text branch of the extractor relies.  A valid sequence (no
overlong forms, no surrogates, at most U+10FFFF) decodes to its code
point; an invalid lead or a failed multi-byte sequence skips the lead
byte.  The Nat argument is step fuel making the recursion structural;
every step consumes at least one byte, so any fuel at least the byte count
gives the untruncated decoding (decodeUtf8Ignore passes the byte count). -/
def decodeUtf8Loop : Nat → List Nat → List Char
  | 0, _ => []
  | _ + 1, [] => []
  | fuel + 1, b0 :: r =>
    if b0 < 0x80 then Char.ofNat b0 :: decodeUtf8Loop fuel r
    else if b0 < 0xC2 then decodeUtf8Loop fuel r
    else if b0 < 0xE0 then
      match r with
      | [] => []
      | b1 :: r1 =>
        if isCont b1 then
          Char.ofNat ((b0 - 0xC0) * 64 + (b1 - 0x80)) :: decodeUtf8Loop fuel r1
        else decodeUtf8Loop fuel r
    else if b0 < 0xF0 then
      match r with
      | b1 :: b2 :: r2 =>
        if isCont b1 && isCont b2 then
          if 0x800 ≤ (b0 - 0xE0) * 4096 + (b1 - 0x80) * 64 + (b2 - 0x80) &&
             !(0xD800 ≤ (b0 - 0xE0) * 4096 + (b1 - 0x80) * 64 + (b2 - 0x80) &&
               (b0 - 0xE0) * 4096 + (b1 - 0x80) * 64 + (b2 - 0x80) < 0xE000) then
            Char.ofNat ((b0 - 0xE0) * 4096 + (b1 - 0x80) * 64 + (b2 - 0x80)) ::
              decodeUtf8Loop fuel r2
          else decodeUtf8Loop fuel r
        else decodeUtf8Loop fuel r
      | _ => []
    else if b0 < 0xF5 then
      match r with
      | b1 :: b2 :: b3 :: r3 =>
        if isCont b1 && isCont b2 && isCont b3 then
          if 0x10000 ≤ (b0 - 0xF0) * 0x40000 + (b1 - 0x80) * 4096 +
               (b2 - 0x80) * 64 + (b3 - 0x80) &&
             (b0 - 0xF0) * 0x40000 + (b1 - 0x80) * 4096 +
               (b2 - 0x80) * 64 + (b3 - 0x80) < 0x110000 then
            Char.ofNat ((b0 - 0xF0) * 0x40000 + (b1 - 0x80) * 4096 +
              (b2 - 0x80) * 64 + (b3 - 0x80)) :: decodeUtf8Loop fuel r3
          else decodeUtf8Loop fuel r
        else decodeUtf8Loop fuel r
      | _ => []
    else decodeUtf8Loop fuel r

/-- UTF-8 decoding of a byte blob with errors ignored: run the decode loop
with fuel equal to the byte count, which every step strictly decreases
byte consumption against, so the input is always fully processed. -/
def decodeUtf8Ignore (bs : List Nat) : List Char :=
  decodeUtf8Loop bs.length bs

/-- Standard UTF-8 encoding of one code point (1 to 4 bytes). -/
def encodeChar (c : Char) : List Nat :=
  if c.toNat < 0x80 then [c.toNat]
  else if c.toNat < 0x800 then
    [0xC0 + c.toNat / 64, 0x80 + c.toNat % 64]
  else if c.toNat < 0x10000 then
    [0xE0 + c.toNat / 4096, 0x80 + (c.toNat / 64) % 64, 0x80 + c.toNat % 64]
  else
    [0xF0 + c.toNat / 0x40000, 0x80 + (c.toNat / 4096) % 64,
     0x80 + (c.toNat / 64) % 64, 0x80 + c.toNat % 64]

/-- UTF-8 encoding of a string. -/
def encodeUtf8 (s : List Char) : List Nat :=
  (s.map encodeChar).flatten

/-- utils.extract_text_from_pdf, with PyPDF2 as an oracle from the raw
bytes to the list of per-page extracted texts, or none when the file
cannot be parsed.  Parse failure is swallowed to the empty string; a page
with no text contributes nothing. -/
def extract_text_from_pdf (pdf : List Nat → Option (List (List Char)))
    (f : UploadedFile) : List Char :=
  match pdf f.content with
  | none => []
  | some pages => pages.flatten

/-- utils.extract_text_from_docx, with python-docx as an oracle from the
raw bytes to the list of paragraph texts in document order, or none when
the file cannot be parsed.  Each paragraph contributes its text followed
by a newline; parse failure is swallowed to the empty string. -/
def extract_text_from_docx (docx : List Nat → Option (List (List Char)))
    (f : UploadedFile) : List Char :=
  match docx f.content with
  | none => []
  | some paras => (paras.map (fun p => p ++ ['\n'])).flatten

/-- utils.extract_text_from_file: dispatch on the declared MIME type;
plain text is decoded as UTF-8 ignoring invalid bytes, PDF and DOCX go to
the format readers, and any other type yields the empty string. -/
def extract_text_from_file (pdf docx : List Nat → Option (List (List Char)))
    (f : UploadedFile) : List Char :=
  if f.type = "text/plain" then decodeUtf8Ignore f.content
  else if f.type = "application/pdf" then extract_text_from_pdf pdf f
  else if f.type =
      "application/vnd.openxmlformats-officedocument.wordprocessingml.document"
    then extract_text_from_docx docx f
  else []

/-- The label/score dictionary returned by analyze_tone and analyze_style. -/
structure LabelScore where
  label : String
  score : MetricValue
  deriving DecidableEq

/-- utils.analyze_tone, with the transformers sentiment pipeline as an
oracle that may fail (an exception is the error case).  Blank input gives
the N-A record; otherwise the text is truncated to 500 code points, the
pipeline invoked, and a failure converted to the Error record. -/
def analyze_tone (pipe : List Char → Except Unit LabelScore)
    (text : List Char) : LabelScore :=
  if isBlank text then { label := "N/A", score := .str "N/A" }
  else
    match pipe (text.take 500) with
    | .ok res => res
    | .error _ => { label := "Error", score := .str "N/A" }

/-- utils.analyze_style, identical shape to analyze_tone with the
formality-classification pipeline. -/
def analyze_style (pipe : List Char → Except Unit LabelScore)
    (text : List Char) : LabelScore :=
  if isBlank text then { label := "N/A", score := .str "N/A" }
  else
    match pipe (text.take 500) with
    | .ok res => res
    | .error _ => { label := "Error", score := .str "N/A" }

/-- The numeric view a Python isinstance(score, (int, float)) check sees:
some rational for an int or float, none for a string such as N/A. -/
def MetricValue.toRat? : MetricValue → Option ℚ
  | .int n => some (n : ℚ)
  | .num q => some q
  | .str _ => none

/-- main.get_flesch_reading_ease_color: gray for non-numeric, green at 60
and above, orange from 30, red below. -/
def get_flesch_reading_ease_color (score : MetricValue) : String :=
  match score.toRat? with
  | none => "gray"
  | some q => if 60 ≤ q then "green" else if 30 ≤ q then "orange" else "red"

/-- main.get_grade_level_color: gray for non-numeric, green up to 8,
orange up to 12, red above. -/
def get_grade_level_color (score : MetricValue) : String :=
  match score.toRat? with
  | none => "gray"
  | some q => if q ≤ 8 then "green" else if q ≤ 12 then "orange" else "red"

/-- Does the pattern occur starting at the head of the haystack? -/
def matchesAt : List Char → List Char → Bool
  | [], _ => true
  | _ :: _, [] => false
  | a :: as, b :: bs => a == b && matchesAt as bs

/-- Python's substring containment test (pat in s). -/
def containsSub (hay pat : List Char) : Bool :=
  match hay with
  | [] => matchesAt pat []
  | _ :: t => matchesAt pat hay || containsSub t pat

/-- Substring containment on strings, as grade-name in grade_text. -/
def inStr (pat hay : String) : Bool :=
  containsSub hay.data pat.data

/-- main.get_overall_grade_color: a decision list over grade-name
substrings of the textual grade estimate. -/
def get_overall_grade_color (grade_text : String) : String :=
  if inStr "5th" grade_text || inStr "6th" grade_text ||
     inStr "7th" grade_text || inStr "8th" grade_text then "green"
  else if inStr "9th" grade_text || inStr "10th" grade_text ||
     inStr "11th" grade_text || inStr "12th" grade_text then "orange"
  else if inStr "College" grade_text || inStr "Graduate" grade_text then "red"
  else "gray"

/-- The DOCX MIME type string the dispatcher compares against. -/
def docxMime : String :=
  "application/vnd.openxmlformats-officedocument.wordprocessingml.document"

/-- A demonstration engine used to instantiate the C3 witness: two matches
in left-to-right order, the second with no suggested replacements. -/
def engDemo : List Char → List LTMatch := fun _ =>
  [⟨2, 3, "Possible agreement error", "HAS_AGR", "grammar", ["have", "had"]⟩,
   ⟨6, 3, "Possible spelling mistake", "MORFOLOGIK", "misspelling", []⟩]

/-- The demonstration text for the C3 witness. -/
def txtDemo : List Char := "I has teh cat".data

/-- A concrete textstat oracle used to instantiate witnesses. -/
def tsConst : Textstat :=
  { lexicon_count := fun _ => 6
    sentence_count := fun _ => 1
    flesch_reading_ease := fun _ => 80
    flesch_kincaid_grade := fun _ => 3
    gunning_fog := fun _ => 4
    smog_index := fun _ => 5
    automated_readability_index := fun _ => 2
    coleman_liau_index := fun _ => 3
    dale_chall_readability_score := fun _ => 6
    lix := fun _ => 20
    rix := fun _ => 1
    text_standard := fun _ => "5th and 6th grade" }

/-- C1: for every empty or whitespace-only input text the Readability
Calculator returns the fixed report in which Word Count, Sentence Count and
Character Count are the number 0 and every other metric key of the fixed
set is mapped to the string sentinel N/A. -/
theorem c1_blank_report (ts : Textstat) (text : List Char)
    (h : isBlank text = true) :
    calculate_readability_scores ts text =
      [("Word Count", .int 0),
       ("Sentence Count", .int 0),
       ("Character Count", .int 0),
       ("Flesch Reading Ease", .str "N/A"),
       ("Flesch-Kincaid Grade Level", .str "N/A"),
       ("Gunning Fog Index", .str "N/A"),
       ("SMOG Index", .str "N/A"),
       ("ARI (Automated Readability Index)", .str "N/A"),
       ("Coleman-Liau Index", .str "N/A"),
       ("Dale-Chall Readability Score", .str "N/A"),
       ("LIX Score", .str "N/A"),
       ("RIX Score", .str "N/A"),
       ("Text Standard", .str "N/A")] := by
  simp [calculate_readability_scores, h]

/-- Witness for C1 at the whitespace-only text consisting of a space and a
tab, with a textstat oracle that would report nonzero scores if consulted. -/
theorem c1_blank_report_witness :
    calculate_readability_scores tsConst [' ', '\t'] =
      [("Word Count", .int 0),
       ("Sentence Count", .int 0),
       ("Character Count", .int 0),
       ("Flesch Reading Ease", .str "N/A"),
       ("Flesch-Kincaid Grade Level", .str "N/A"),
       ("Gunning Fog Index", .str "N/A"),
       ("SMOG Index", .str "N/A"),
       ("ARI (Automated Readability Index)", .str "N/A"),
       ("Coleman-Liau Index", .str "N/A"),
       ("Dale-Chall Readability Score", .str "N/A"),
       ("LIX Score", .str "N/A"),
       ("RIX Score", .str "N/A"),
       ("Text Standard", .str "N/A")] :=
  c1_blank_report tsConst [' ', '\t'] (by decide)

/-- C2: for every empty or whitespace-only input text the Grammar Checker
returns the empty sequence, whatever matches the external engine would
produce — the result does not depend on the engine, so the engine is not
invoked on such input. -/
theorem c2_blank_grammar (engine : List Char → List LTMatch)
    (text : List Char) (h : isBlank text = true) :
    check_grammar engine text = [] := by
  simp [check_grammar, h]

/-- Witness for C2 at a whitespace-only text and an engine that reports a
match on every input, showing the match is discarded without invocation. -/
theorem c2_blank_grammar_witness :
    check_grammar (fun _ => [⟨0, 1, "m", "R", "misspelling", ["a"]⟩])
      [' ', '\n'] = [] :=
  c2_blank_grammar (fun _ => [⟨0, 1, "m", "R", "misspelling", ["a"]⟩])
    [' ', '\n'] (by decide)

/-- C8: for every non-blank input text the Character Count entry of the
readability report is the exact length of the input string, counting all
whitespace and punctuation code points. -/
theorem c8_character_count (ts : Textstat) (text : List Char)
    (h : isBlank text = false) :
    List.lookup "Character Count" (calculate_readability_scores ts text) =
      some (.int text.length) := by
  simp [calculate_readability_scores, h, List.lookup]

/-- Witness for C8 at the seven-character text with a space and a period. -/
theorem c8_character_count_witness :
    List.lookup "Character Count"
      (calculate_readability_scores tsConst ("ab cde.".data)) =
      some (.int 7) :=
  c8_character_count tsConst ("ab cde.".data) (by decide)

/-- C10: the Context slice of a grammar issue is total and clamps: for any
reported offset and error length, an offset at or past the end of the text
gives the empty Context, and whenever offset plus length reaches past the
end the Context is the truncated suffix starting at the offset. -/
theorem c10_context_clamps (text : List Char) (m : LTMatch) :
    (text.length ≤ m.offset → (mkGrammarIssue text m).context = []) ∧
    (text.length ≤ m.offset + m.errorLength →
      (mkGrammarIssue text m).context = text.drop m.offset) := by
  constructor
  · intro h
    simp [mkGrammarIssue, List.drop_eq_nil_of_le h]
  · intro h
    simp only [mkGrammarIssue]
    apply List.take_of_length_le
    rw [List.length_drop]
    omega

/-- Witness for C10: an engine match entirely past the end of a two-letter
text gives the empty Context, and one overlapping the end gives the suffix. -/
theorem c10_context_clamps_witness :
    (mkGrammarIssue "ab".data ⟨5, 3, "m", "R", "t", []⟩).context = [] ∧
    (mkGrammarIssue "ab".data ⟨1, 99, "m", "R", "t", []⟩).context =
      ("ab".data).drop 1 :=
  ⟨(c10_context_clamps "ab".data ⟨5, 3, "m", "R", "t", []⟩).1 (by decide),
   (c10_context_clamps "ab".data ⟨1, 99, "m", "R", "t", []⟩).2 (by decide)⟩

/-- C3: for every non-blank text the Grammar Checker returns exactly one
issue per engine match, in engine order, with Context the clamping slice of
the original text at the reported offset and length, Offset and Length the
reported values, and Suggested Correction the comma-joined replacements or
the sentinel N/A when none were suggested. -/
theorem c3_issue_per_match (engine : List Char → List LTMatch)
    (text : List Char) (h : isBlank text = false) :
    check_grammar engine text =
      (engine text).map (fun m =>
        { context := (text.drop m.offset).take m.errorLength
          message := m.message
          category := m.ruleId
          ruleName := m.ruleIssueType
          suggestedCorrection :=
            if m.replacements.isEmpty then "N/A"
            else String.intercalate ", " m.replacements
          offset := m.offset
          length := m.errorLength }) := by
  simp [check_grammar, h, mkGrammarIssue]

/-- Witness for C3 at a concrete text and two-match engine: the issues come
out in order with sliced contexts, joined replacements and the sentinel. -/
theorem c3_issue_per_match_witness :
    check_grammar engDemo txtDemo =
      [⟨"has".data, "Possible agreement error", "HAS_AGR", "grammar",
        "have, had", 2, 3⟩,
       ⟨"teh".data, "Possible spelling mistake", "MORFOLOGIK", "misspelling",
        "N/A", 6, 3⟩] :=
  (c3_issue_per_match engDemo txtDemo (by decide)).trans (by decide)

/-- C4: the three display colour-coding functions implement the threshold
policy exactly: Flesch Reading Ease at least 60 is green, 30 up to 60
orange, below 30 red; a grade level at most 8 is green, above 8 up to 12
orange, above 12 red; and the categorical Text Standard is green on a 5th
to 8th grade-name substring, orange on 9th to 12th, red on College or
Graduate, and gray otherwise, decided in that order. -/
theorem c4_color_thresholds (q : ℚ) (g : String) :
    (60 ≤ q → get_flesch_reading_ease_color (.num q) = "green") ∧
    (30 ≤ q → q < 60 → get_flesch_reading_ease_color (.num q) = "orange") ∧
    (q < 30 → get_flesch_reading_ease_color (.num q) = "red") ∧
    (q ≤ 8 → get_grade_level_color (.num q) = "green") ∧
    (8 < q → q ≤ 12 → get_grade_level_color (.num q) = "orange") ∧
    (12 < q → get_grade_level_color (.num q) = "red") ∧
    ((inStr "5th" g || inStr "6th" g || inStr "7th" g || inStr "8th" g)
        = true → get_overall_grade_color g = "green") ∧
    ((inStr "5th" g || inStr "6th" g || inStr "7th" g || inStr "8th" g)
        = false →
     (inStr "9th" g || inStr "10th" g || inStr "11th" g || inStr "12th" g)
        = true → get_overall_grade_color g = "orange") ∧
    ((inStr "5th" g || inStr "6th" g || inStr "7th" g || inStr "8th" g)
        = false →
     (inStr "9th" g || inStr "10th" g || inStr "11th" g || inStr "12th" g)
        = false →
     (inStr "College" g || inStr "Graduate" g) = true →
       get_overall_grade_color g = "red") ∧
    ((inStr "5th" g || inStr "6th" g || inStr "7th" g || inStr "8th" g)
        = false →
     (inStr "9th" g || inStr "10th" g || inStr "11th" g || inStr "12th" g)
        = false →
     (inStr "College" g || inStr "Graduate" g) = false →
       get_overall_grade_color g = "gray") := by
  refine ⟨?_, ?_, ?_, ?_, ?_, ?_, ?_, ?_, ?_, ?_⟩
  · intro h
    simp only [get_flesch_reading_ease_color, MetricValue.toRat?]
    rw [if_pos h]
  · intro h1 h2
    simp only [get_flesch_reading_ease_color, MetricValue.toRat?]
    rw [if_neg (by linarith), if_pos h1]
  · intro h
    simp only [get_flesch_reading_ease_color, MetricValue.toRat?]
    rw [if_neg (by linarith), if_neg (by linarith)]
  · intro h
    simp only [get_grade_level_color, MetricValue.toRat?]
    rw [if_pos h]
  · intro h1 h2
    simp only [get_grade_level_color, MetricValue.toRat?]
    rw [if_neg (by linarith), if_pos h2]
  · intro h
    simp only [get_grade_level_color, MetricValue.toRat?]
    rw [if_neg (by linarith), if_neg (by linarith)]
  · intro h
    simp only [get_overall_grade_color]
    rw [if_pos h]
  · intro h1 h2
    simp only [get_overall_grade_color]
    rw [if_neg (by simp [h1]), if_pos h2]
  · intro h1 h2 h3
    simp only [get_overall_grade_color]
    rw [if_neg (by simp [h1]), if_neg (by simp [h2]), if_pos h3]
  · intro h1 h2 h3
    simp only [get_overall_grade_color]
    rw [if_neg (by simp [h1]), if_neg (by simp [h2]), if_neg (by simp [h3])]

/-- Witness for C4 at the spec's example scores and grade strings. -/
theorem c4_color_thresholds_witness :
    get_flesch_reading_ease_color (.num 75) = "green" ∧
    get_flesch_reading_ease_color (.num 45) = "orange" ∧
    get_flesch_reading_ease_color (.num 10) = "red" ∧
    get_grade_level_color (.num 6) = "green" ∧
    get_grade_level_color (.num 10) = "orange" ∧
    get_grade_level_color (.num 14) = "red" ∧
    get_overall_grade_color "6th and 7th grade" = "green" ∧
    get_overall_grade_color "9th and 10th grade" = "orange" ∧
    get_overall_grade_color "College" = "red" ∧
    get_overall_grade_color "N/A" = "gray" :=
  ⟨(c4_color_thresholds 75 "x").1 (by norm_num),
   (c4_color_thresholds 45 "x").2.1 (by norm_num) (by norm_num),
   (c4_color_thresholds 10 "x").2.2.1 (by norm_num),
   (c4_color_thresholds 6 "x").2.2.2.1 (by norm_num),
   (c4_color_thresholds 10 "x").2.2.2.2.1 (by norm_num) (by norm_num),
   (c4_color_thresholds 14 "x").2.2.2.2.2.1 (by norm_num),
   (c4_color_thresholds 0 "6th and 7th grade").2.2.2.2.2.2.1 (by decide),
   (c4_color_thresholds 0 "9th and 10th grade").2.2.2.2.2.2.2.1
     (by decide) (by decide),
   (c4_color_thresholds 0 "College").2.2.2.2.2.2.2.2.1
     (by decide) (by decide) (by decide),
   (c4_color_thresholds 0 "N/A").2.2.2.2.2.2.2.2.2
     (by decide) (by decide) (by decide)⟩

/-- C5: the extractor is fail-soft and total: any declared type other than
plain text, PDF or DOCX yields the empty string whatever the bytes, and a
declared PDF whose bytes the PDF parser cannot process also yields the
empty string with no exception escaping. -/
theorem c5_fail_soft (pdf docx : List Nat → Option (List (List Char)))
    (f : UploadedFile) :
    (f.type ≠ "text/plain" → f.type ≠ "application/pdf" →
      f.type ≠ docxMime → extract_text_from_file pdf docx f = []) ∧
    (f.type = "application/pdf" → pdf f.content = none →
      extract_text_from_file pdf docx f = []) := by
  constructor
  · intro h1 h2 h3
    simp [extract_text_from_file, h1, h2, docxMime] at h3 ⊢
    intro hc
    exact absurd hc h3
  · intro h1 h2
    simp [extract_text_from_file, extract_text_from_pdf, h1, h2]

/-- Witness for C5: an image upload with nonempty bytes yields the empty
string, and a malformed PDF (parser returns none) yields the empty string. -/
theorem c5_fail_soft_witness :
    extract_text_from_file (fun _ => some [['a']]) (fun _ => some [['b']])
      ⟨"image/png", [1, 2, 3]⟩ = [] ∧
    extract_text_from_file (fun _ => none) (fun _ => some [['b']])
      ⟨"application/pdf", [0]⟩ = [] :=
  ⟨(c5_fail_soft (fun _ => some [['a']]) (fun _ => some [['b']])
      ⟨"image/png", [1, 2, 3]⟩).1 (by decide) (by decide) (by decide),
   (c5_fail_soft (fun _ => none) (fun _ => some [['b']])
      ⟨"application/pdf", [0]⟩).2 rfl rfl⟩

/-- C7: for every DOCX upload the parser can read, the extractor returns
the concatenation, in document order, of each paragraph's text followed by
a newline. -/
theorem c7_docx_paragraphs (pdf docx : List Nat → Option (List (List Char)))
    (f : UploadedFile) (paras : List (List Char))
    (hty : f.type = docxMime) (hp : docx f.content = some paras) :
    extract_text_from_file pdf docx f =
      (paras.map (fun p => p ++ ['\n'])).flatten := by
  simp [extract_text_from_file, extract_text_from_docx, hty, hp, docxMime]

/-- Witness for C7 at the spec's example document with paragraphs Hello
world. and Second paragraph. -/
theorem c7_docx_paragraphs_witness :
    extract_text_from_file (fun _ => none)
      (fun _ => some ["Hello world.".data, "Second paragraph.".data])
      ⟨docxMime, [7]⟩ =
      "Hello world.\nSecond paragraph.\n".data :=
  (c7_docx_paragraphs (fun _ => none)
    (fun _ => some ["Hello world.".data, "Second paragraph.".data])
    ⟨docxMime, [7]⟩ ["Hello world.".data, "Second paragraph.".data]
    rfl rfl).trans (by decide)

/-- C9: for every non-blank text, a failure of the external sentiment or
style pipeline on the truncated text is caught: analyze_tone and
analyze_style return the record with label Error and score N/A instead of
propagating the exception. -/
theorem c9_pipeline_error (tone style : List Char → Except Unit LabelScore)
    (text : List Char) (h : isBlank text = false)
    (hte : tone (text.take 500) = .error ())
    (hse : style (text.take 500) = .error ()) :
    analyze_tone tone text = ⟨"Error", .str "N/A"⟩ ∧
    analyze_style style text = ⟨"Error", .str "N/A"⟩ := by
  constructor
  · simp [analyze_tone, h, hte]
  · simp [analyze_style, h, hse]

/-- Witness for C9 at a two-letter text and pipelines that always raise. -/
theorem c9_pipeline_error_witness :
    analyze_tone (fun _ => .error ()) "hi".data = ⟨"Error", .str "N/A"⟩ ∧
    analyze_style (fun _ => .error ()) "hi".data = ⟨"Error", .str "N/A"⟩ :=
  c9_pipeline_error (fun _ => .error ()) (fun _ => .error ()) "hi".data
    (by decide) rfl rfl

/-- The validity bounds carried by every Lean character: its code point is
below the surrogate range or strictly between it and U+110000. -/
theorem char_valid_nat (c : Char) :
    c.toNat < 0xD800 ∨ (0xDFFF < c.toNat ∧ c.toNat < 0x110000) := by
  have h := c.valid
  simp [UInt32.isValidChar, Nat.isValidChar] at h
  exact h

/-- Decoding the UTF-8 encoding of one character at the head of a byte
stream yields that character and continues with the rest. -/
theorem loop_encodeChar (c : Char) (r : List Nat) (f : Nat) :
    decodeUtf8Loop (f + 1) (encodeChar c ++ r) = c :: decodeUtf8Loop f r := by
  have hv := char_valid_nat c
  by_cases h1 : c.toNat < 0x80
  · have he : encodeChar c = [c.toNat] := by
      simp only [encodeChar]; rw [if_pos h1]
    rw [he, List.cons_append, List.nil_append]
    conv_lhs => unfold decodeUtf8Loop
    rw [if_pos h1, Char.ofNat_toNat]
  · by_cases h2 : c.toNat < 0x800
    · have he : encodeChar c = [0xC0 + c.toNat / 64, 0x80 + c.toNat % 64] := by
        simp only [encodeChar]; rw [if_neg h1, if_pos h2]
      rw [he, List.cons_append, List.cons_append, List.nil_append]
      conv_lhs => unfold decodeUtf8Loop
      rw [if_neg (by omega), if_neg (by omega), if_pos (by omega)]
      dsimp only
      rw [if_pos (by
        simp only [isCont, Bool.and_eq_true, decide_eq_true_eq]; omega)]
      have harg : (0xC0 + c.toNat / 64 - 0xC0) * 64 +
          (0x80 + c.toNat % 64 - 0x80) = c.toNat := by omega
      rw [harg, Char.ofNat_toNat]
    · by_cases h3 : c.toNat < 0x10000
      · have he : encodeChar c =
            [0xE0 + c.toNat / 4096, 0x80 + (c.toNat / 64) % 64,
             0x80 + c.toNat % 64] := by
          simp only [encodeChar]; rw [if_neg h1, if_neg h2, if_pos h3]
        rw [he, List.cons_append, List.cons_append, List.cons_append,
          List.nil_append]
        conv_lhs => unfold decodeUtf8Loop
        rw [if_neg (by omega), if_neg (by omega), if_neg (by omega),
          if_pos (by omega)]
        dsimp only
        rw [if_pos (by
          simp only [isCont, Bool.and_eq_true, decide_eq_true_eq]
          omega)]
        rw [if_pos (by
          simp only [Bool.and_eq_true, Bool.not_eq_true', decide_eq_true_eq]
          simp only [Bool.and_eq_false_iff, decide_eq_false_iff_not]
          omega)]
        have harg : (0xE0 + c.toNat / 4096 - 0xE0) * 4096 +
            (0x80 + (c.toNat / 64) % 64 - 0x80) * 64 +
            (0x80 + c.toNat % 64 - 0x80) = c.toNat := by omega
        rw [harg, Char.ofNat_toNat]
      · have he : encodeChar c =
            [0xF0 + c.toNat / 0x40000, 0x80 + (c.toNat / 4096) % 64,
             0x80 + (c.toNat / 64) % 64, 0x80 + c.toNat % 64] := by
          simp only [encodeChar]; rw [if_neg h1, if_neg h2, if_neg h3]
        have hub : c.toNat < 0x110000 := by omega
        rw [he, List.cons_append, List.cons_append, List.cons_append,
          List.cons_append, List.nil_append]
        conv_lhs => unfold decodeUtf8Loop
        rw [if_neg (by omega), if_neg (by omega), if_neg (by omega),
          if_neg (by omega), if_pos (by omega)]
        dsimp only
        rw [if_pos (by
          simp only [isCont, Bool.and_eq_true, decide_eq_true_eq]
          omega)]
        rw [if_pos (by
          simp only [Bool.and_eq_true, decide_eq_true_eq]
          omega)]
        have harg : (0xF0 + c.toNat / 0x40000 - 0xF0) * 0x40000 +
            (0x80 + (c.toNat / 4096) % 64 - 0x80) * 4096 +
            (0x80 + (c.toNat / 64) % 64 - 0x80) * 64 +
            (0x80 + c.toNat % 64 - 0x80) = c.toNat := by omega
        rw [harg, Char.ofNat_toNat]

/-- The decode loop on an empty byte stream yields the empty string at any
fuel. -/
theorem decode_loop_nil (f : Nat) : decodeUtf8Loop f [] = [] := by
  cases f <;> rfl

/-- Every character encodes to at least one byte. -/
theorem one_le_length_encodeChar (c : Char) : 1 ≤ (encodeChar c).length := by
  simp only [encodeChar]
  split_ifs <;> simp

/-- A string never has more characters than its UTF-8 encoding has bytes. -/
theorem length_le_length_encodeUtf8 (s : List Char) :
    s.length ≤ (encodeUtf8 s).length := by
  induction s with
  | nil => simp [encodeUtf8]
  | cons c s ih =>
    have h1 := one_le_length_encodeChar c
    simp only [encodeUtf8, List.map_cons, List.flatten_cons,
      List.length_append, List.length_cons] at ih ⊢
    omega

/-- With fuel at least the character count, the decode loop inverts the
UTF-8 encoding of any string. -/
theorem decode_loop_encodeUtf8 (s : List Char) (f : Nat)
    (h : s.length ≤ f) : decodeUtf8Loop f (encodeUtf8 s) = s := by
  induction s generalizing f with
  | nil => simpa [encodeUtf8] using decode_loop_nil f
  | cons c s ih =>
    cases f with
    | zero => simp at h
    | succ f =>
      have hf : s.length ≤ f := by simpa using h
      have hrw : encodeUtf8 (c :: s) = encodeChar c ++ encodeUtf8 s := by
        simp [encodeUtf8]
      rw [hrw, loop_encodeChar, ih f hf]

/-- The error-ignoring UTF-8 decoder inverts the UTF-8 encoding. -/
theorem decode_encode_roundtrip (s : List Char) :
    decodeUtf8Ignore (encodeUtf8 s) = s := by
  unfold decodeUtf8Ignore
  exact decode_loop_encodeUtf8 s _ (length_le_length_encodeUtf8 s)

/-- C6: for every byte sequence tagged plain text, the extractor returns
exactly the error-ignoring UTF-8 decoding of the bytes — a total function,
so invalid bytes are dropped rather than raising — and consequently
extracting the UTF-8 encoding of any string returns the string unchanged. -/
theorem c6_plain_text_roundtrip
    (pdf docx : List Nat → Option (List (List Char))) (f : UploadedFile)
    (h : f.type = "text/plain") :
    extract_text_from_file pdf docx f = decodeUtf8Ignore f.content ∧
    ∀ s : List Char,
      extract_text_from_file pdf docx ⟨"text/plain", encodeUtf8 s⟩ = s := by
  constructor
  · simp [extract_text_from_file, h]
  · intro s
    simpa [extract_text_from_file] using decode_encode_roundtrip s

/-- Witness for C6: a text with an accented character survives the
encode-extract round trip, and a stray invalid byte is dropped. -/
theorem c6_plain_text_roundtrip_witness :
    extract_text_from_file (fun _ => none) (fun _ => none)
      ⟨"text/plain", encodeUtf8 "café".data⟩ = "café".data ∧
    extract_text_from_file (fun _ => none) (fun _ => none)
      ⟨"text/plain", [0x61, 0xFF, 0x62]⟩ = "ab".data :=
  ⟨(c6_plain_text_roundtrip (fun _ => none) (fun _ => none)
      ⟨"text/plain", encodeUtf8 "café".data⟩ rfl).2 "café".data,
   ((c6_plain_text_roundtrip (fun _ => none) (fun _ => none)
      ⟨"text/plain", [0x61, 0xFF, 0x62]⟩ rfl).1).trans (by decide)⟩

end FileReadability
